import Mathlib

/-!
Shallow embedding of the Virtual-Weather-IoT-Dashboard core:
`sanitize_topic` and `get_weather_condition` from `src/app.py`,
`WeatherService.get_weather` from `src/weather_service.py`, the GUI
update loop (`WeatherApp.update_loop` / `WeatherApp._get_weather_data`)
from `src/app.py`, and the bounded `deque(maxlen=DEFAULT_HISTORY)`
temperature history.

Python floats are modelled as rationals (`ℚ`), wall-clock instants as
rationals, dictionaries keyed by city as functions `String → Option _`.
The fixed set of condition categories is the inductive `Condition`; the
source stores one emoji glyph per category ("⛈️", "🌧️", "🌨️", "🌫️",
"☀️", "🌤️", "☁️", "❓"), a bijection with the tags used here.
-/

/-- Condition categories produced by both classification paths in the
source (each is rendered as one fixed emoji glyph). -/
inductive Condition where
  | thunderstorm
  | rain
  | snow
  | fog
  | clear
  | partlyCloudy
  | overcast
  | unknown
deriving DecidableEq, Repr

/-- Character-list analogue of Python `str.startswith` used to build
substring containment. -/
def leadsWith : List Char → List Char → Bool
  | [], _ => true
  | _ :: _, [] => false
  | a :: as, b :: bs => a == b && leadsWith as bs

/-- Substring containment on character lists: `hasSub pat s` is Python's
`pat in s`. -/
def hasSub (pat : List Char) : List Char → Bool
  | [] => leadsWith pat []
  | s@(_ :: rest) => leadsWith pat s || hasSub pat rest

/-- Python `pat in s` on strings (both operands already materialised as
`String`). -/
def strContains (s pat : String) : Bool :=
  hasSub pat.data s.data

/-- Python `s.lower()` restricted to ASCII case mapping (the condition
texts and city keywords the classifier matches are ASCII). -/
def lowerStr (s : String) : String :=
  ⟨s.data.map Char.toLower⟩

/-- Keyword test of the `thunderstorm` branch ("thunder" in conditions). -/
def thunderTest (c : String) : Bool := strContains c "thunder"

/-- Keyword test of the `rain` branch. -/
def rainTest (c : String) : Bool :=
  strContains c "rain" || strContains c "drizzle" || strContains c "shower"

/-- Keyword test of the `snow` branch. -/
def snowTest (c : String) : Bool :=
  strContains c "snow" || strContains c "ice" || strContains c "sleet"

/-- Keyword test of the `fog` branch. -/
def fogTest (c : String) : Bool :=
  strContains c "fog" || strContains c "mist" || strContains c "haze"

/-- Keyword test of the `clear` branch ("clear" present, "cloud" absent). -/
def clearTest (c : String) : Bool :=
  strContains c "clear" && !strContains c "cloud"

/-- Keyword test of the `partly cloudy` branch. -/
def partlyTest (c : String) : Bool :=
  strContains c "partly cloudy" || strContains c "scattered clouds"

/-- Keyword test of the `overcast` branch. -/
def cloudTest (c : String) : Bool :=
  strContains c "cloud" || strContains c "overcast"

/-- Text-path classifier from `WeatherService.get_weather`
(src/weather_service.py lines 100-118): lower-case the provider's
`conditions` text, then test keyword categories in source order,
first match wins. -/
def classifyText (conditions : String) : Condition :=
  if thunderTest (lowerStr conditions) then .thunderstorm
  else if rainTest (lowerStr conditions) then .rain
  else if snowTest (lowerStr conditions) then .snow
  else if fogTest (lowerStr conditions) then .fog
  else if clearTest (lowerStr conditions) then .clear
  else if partlyTest (lowerStr conditions) then .partlyCloudy
  else if cloudTest (lowerStr conditions) then .overcast
  else .unknown

/-- Numeric-path classifier `get_weather_condition` (src/app.py lines
59-66): the source returns `WEATHER_ICONS['sunny'|'rainy'|'partly_cloudy']`,
i.e. the glyphs for clear, rain and partly-cloudy. -/
def get_weather_condition (temp humidity : ℚ) : Condition :=
  if temp > 30 ∧ humidity < 50 then .clear
  else if humidity > 80 then .rain
  else .partlyCloudy

/-- Character class `[\s\-.,!?]` of the first regex in `sanitize_topic`,
by code point (Python `\s` on the inputs this app sees: tab 9, LF 10,
vertical tab 11, form feed 12, CR 13, space 32; then `-` 45, `.` 46,
`,` 44, `!` 33, `?` 63). -/
def isSep (c : Char) : Bool :=
  c.toNat == 32 || c.toNat == 9 || c.toNat == 10 || c.toNat == 11 ||
    c.toNat == 12 || c.toNat == 13 ||
    c.toNat == 45 || c.toNat == 46 || c.toNat == 44 || c.toNat == 33 ||
    c.toNat == 63

/-- Character class `[a-z0-9_]` kept by the second regex in
`sanitize_topic`. -/
def isKept (c : Char) : Bool :=
  (97 ≤ c.toNat && c.toNat ≤ 122) || (48 ≤ c.toNat && c.toNat ≤ 57) ||
    c.toNat == 95

/-- One pass of `re.sub(r'[\s\-.,!?]+', '_', s)`: the Boolean argument
records whether we are inside a run of separator characters, so each
maximal run is replaced by a single underscore. -/
def collapseSep : Bool → List Char → List Char
  | _, [] => []
  | inRun, c :: rest =>
    if isSep c then
      (if inRun then [] else ['_']) ++ collapseSep true rest
    else
      c :: collapseSep false rest

/-- Drop leading underscores (one side of Python `str.strip('_')`). -/
def dropUnd : List Char → List Char
  | [] => []
  | c :: rest => if c == '_' then dropUnd rest else c :: rest

/-- Python `s.strip('_')`: drop underscores from both ends. -/
def stripUnd (l : List Char) : List Char :=
  dropUnd ((dropUnd l.reverse).reverse)

/-- The function `sanitize_topic` (src/app.py lines 23-37): lower-case,
collapse separator runs to `_`, delete every char outside `[a-z0-9_]`,
strip leading and trailing underscores. -/
def sanitize_topic (name : String) : String :=
  ⟨stripUnd (List.filter isKept (collapseSep false (name.data.map Char.toLower)))⟩

/-- One normalized weather observation, the dict
`{"temperature": _, "humidity": _, "wind": _, "condition": _}` built by
`WeatherService.get_weather`. -/
structure Reading where
  temperature : ℚ
  humidity : ℚ
  wind : ℚ
  condition : Condition
deriving DecidableEq, Repr

/-- The `currentConditions` object of a well-formed Visual Crossing
response: `temp` (°C), `humidity` (%), `windspeed` (mph), `conditions`
(free text). -/
structure CurrentConditions where
  temp : ℚ
  humidity : ℚ
  windspeed : ℚ
  conditions : String
deriving DecidableEq, Repr

/-- Outcome of the one HTTP request a `get_weather` call may issue.
`success none` is a 2xx body without a `currentConditions` object
(`raw['currentConditions']` raises `KeyError`); `httpError s` is
`raise_for_status` raising `requests.exceptions.HTTPError` with status
`s`; `transportError` is any `requests` failure that is not an
`HTTPError` (connection error, timeout, ...), which the source's
`except requests.exceptions.HTTPError` clause does not catch. -/
inductive HttpResult where
  | success (body : Option CurrentConditions)
  | httpError (status : Nat)
  | transportError
deriving DecidableEq, Repr

/-- Errors a `get_weather` call can propagate to its caller. -/
inductive FetchError where
  | http (status : Nat)
  | transport
  | malformed
deriving DecidableEq, Repr

/-- The cache `WeatherService._cache`: a map from city name to
`(timestamp, data)`. -/
def Cache : Type := String → Option (ℚ × Reading)

/-- Result of one `get_weather` call: the returned value or propagated
error, the cache afterwards, and whether a network request was issued
(`requests.get` was reached). -/
structure FetchOutcome where
  result : Except FetchError Reading
  cache : Cache
  requested : Bool

/-- The class constant `WeatherService.CACHE_DURATION`; the source
assigns 300 and immediately rebinds it to 600, so the effective value
is 600 seconds. -/
def CACHE_DURATION : ℚ := 600

/-- Python `round(q, 1)` modelled as rounding to the nearest tenth
(CPython breaks exact ties to even; ties never occur in this
development's inputs). -/
def round1 (q : ℚ) : ℚ := (round (q * 10) : ℚ) / 10

/-- The `Reading` built from a parsed response body in
`WeatherService.get_weather` (src/weather_service.py lines 92-118):
rounds temperature and humidity to 1 decimal, converts wind from mph to
km/h via ×1.60934 and rounds, and classifies the condition text. -/
def mkReading (cur : CurrentConditions) : Reading :=
  { temperature := round1 cur.temp
    humidity := round1 cur.humidity
    wind := round1 (cur.windspeed * 1.60934)
    condition := classifyText cur.conditions }

/-- Write-through of `self._cache[city] = (time.time(), data)`. -/
def updateCache (cache : Cache) (city : String) (v : ℚ × Reading) : Cache :=
  fun c => if c = city then some v else cache c

/-- Body of the network part of `get_weather` (src/weather_service.py
lines 66-122), reached only when no fresh cache entry exists;
`cached_data` is the expired entry saved for the 429 fallback (`None`
when the city was not cached). -/
def fetchFromApi (cache : Cache) (now : ℚ) (net : HttpResult) (city : String)
    (use_cache_on_error : Bool) (cached_data : Option Reading) : FetchOutcome :=
  match net with
  | .httpError status =>
    match cached_data with
    | some d =>
      if status == 429 && use_cache_on_error then ⟨.ok d, cache, true⟩
      else ⟨.error (.http status), cache, true⟩
    | none => ⟨.error (.http status), cache, true⟩
  | .transportError => ⟨.error .transport, cache, true⟩
  | .success none => ⟨.error .malformed, cache, true⟩
  | .success (some cur) =>
    let data := mkReading cur
    ⟨.ok data, updateCache cache city (now, data), true⟩

/-- The method `WeatherService.get_weather` (src/weather_service.py
lines 36-122). `now` is `time.time()` at the call; `net` is what the
single possible HTTP request would return. A fresh cache entry
(`now - timestamp < CACHE_DURATION`) is returned without any request;
otherwise the stale entry (if any) is kept for the 429 fallback and the
request is issued. -/
def get_weather (cache : Cache) (now : ℚ) (net : HttpResult) (city : String)
    (use_cache_on_error : Bool) : FetchOutcome :=
  match cache city with
  | some (timestamp, data) =>
    if now - timestamp < CACHE_DURATION then ⟨.ok data, cache, false⟩
    else fetchFromApi cache now net city use_cache_on_error (some data)
  | none => fetchFromApi cache now net city use_cache_on_error none

/-- What one `self.weather_service.get_weather(city)` call inside a tick
does, abstracted: succeed with a reading, raise a
`requests.RequestException`, or raise some other exception (e.g. a
`KeyError` from a malformed response). -/
inductive TickFetch where
  | ok (r : Reading)
  | reqError
  | otherError
deriving DecidableEq, Repr

/-- The placeholder dict `WeatherApp._get_weather_data` returns when the
service raises a `requests.RequestException` (src/app.py lines 241-246);
its condition glyph "❓" is the `unknown` tag. -/
def dummyReading : Reading :=
  { temperature := 20, humidity := 50, wind := 0, condition := .unknown }

/-- The method `WeatherApp._get_weather_data` (src/app.py lines
234-246): a `RequestException` is swallowed and replaced by
`dummyReading`; any other exception propagates (`error`). -/
def get_weather_data (outcome : TickFetch) : Except Unit Reading :=
  match outcome with
  | .ok r => .ok r
  | .reqError => .ok dummyReading
  | .otherError => .error ()

/-- Display state of the table: each city's row is the last reading
written to its `StringVar`s (`none` before any update, the initial
"--" placeholders). -/
def Rows : Type := String → Option Reading

/-- One city's iteration of the `for city in self.cities` loop in
`WeatherApp.update_loop` (src/app.py lines 260-300): on any exception
from `_get_weather_data` the loop body does `continue` (row untouched);
otherwise the four `StringVar`s of that city's row are set from the
data. -/
def update_loop_city (fetch : String → TickFetch) (rows : Rows) (city : String) : Rows :=
  match get_weather_data (fetch city) with
  | .error _ => rows
  | .ok r => fun c => if c = city then some r else rows c

/-- One full tick of `WeatherApp.update_loop` (src/app.py lines
257-303) restricted to the table state: the cities are processed in
their configured order, each through `update_loop_city`. The tick is a
total function — it never raises. -/
def update_loop (fetch : String → TickFetch) (cities : List String) (rows : Rows) : Rows :=
  cities.foldl (update_loop_city fetch) rows

/-- Module constant `DEFAULT_HISTORY` (src/app.py line 50). -/
def DEFAULT_HISTORY : Nat := 60

/-- Appending to a `collections.deque(maxlen=cap)`: the new element goes
on the right and elements are discarded from the left until the length
is back within `cap`. -/
def dequeAppend {α : Type} (cap : Nat) (q : List α) (x : α) : List α :=
  let grown := q ++ [x]
  if cap < grown.length then grown.drop (grown.length - cap) else grown

/-- Sample reading used in concrete instantiations. -/
def sampleReading : Reading :=
  { temperature := 1, humidity := 2, wind := 3, condition := .clear }

/-- Sample parsed `currentConditions` body used in concrete
instantiations. -/
def sampleCur : CurrentConditions :=
  { temp := 25, humidity := 60, windspeed := 10, conditions := "Clear" }

/-- Cache with no entries. -/
def emptyCache : Cache := fun _ => none

/-- Cache holding, for every city, one entry taken at time 0. -/
def sampleCache : Cache := fun _ => some (0, sampleReading)

theorem dequeAppend_length_le {α : Type} (cap : Nat) (q : List α) (x : α)
    (h : q.length ≤ cap) : (dequeAppend cap q x).length ≤ cap := by
  show (if cap < (q ++ [x]).length then
      (q ++ [x]).drop ((q ++ [x]).length - cap) else q ++ [x]).length ≤ cap
  split_ifs with hc <;>
    simp only [List.length_drop, List.length_append, List.length_cons,
      List.length_nil] at * <;> omega

theorem foldl_dequeAppend_length {α : Type} (cap : Nat) (xs : List α)
    (q : List α) (h : q.length ≤ cap) :
    (xs.foldl (dequeAppend cap) q).length ≤ cap := by
  induction xs generalizing q with
  | nil => simpa using h
  | cons y ys ih => exact ih _ (dequeAppend_length_le cap q y h)

theorem update_loop_city_ne (fetch : String → TickFetch) (rows : Rows)
    (city c : String) (h : c ≠ city) :
    update_loop_city fetch rows city c = rows c := by
  unfold update_loop_city
  cases get_weather_data (fetch city) with
  | error _ => rfl
  | ok r => simp [h]

theorem update_loop_city_ok (fetch : String → TickFetch) (rows : Rows)
    (city : String) (r : Reading) (h : fetch city = .ok r) :
    update_loop_city fetch rows city city = some r := by
  unfold update_loop_city
  rw [h]
  simp [get_weather_data]

theorem update_loop_city_skip (fetch : String → TickFetch) (rows : Rows)
    (city : String) (h : fetch city = .otherError) :
    update_loop_city fetch rows city = rows := by
  unfold update_loop_city
  rw [h]
  rfl

theorem update_loop_city_req (fetch : String → TickFetch) (rows : Rows)
    (city : String) (h : fetch city = .reqError) :
    update_loop_city fetch rows city city = some dummyReading := by
  unfold update_loop_city
  rw [h]
  simp [get_weather_data]

theorem update_loop_not_mem (fetch : String → TickFetch) (cities : List String)
    (rows : Rows) (c : String) (h : c ∉ cities) :
    update_loop fetch cities rows c = rows c := by
  induction cities generalizing rows with
  | nil => rfl
  | cons city rest ih =>
    have hne : c ≠ city := fun heq => h (heq ▸ List.mem_cons_self city rest)
    have hrest : c ∉ rest := fun hm => h (List.mem_cons_of_mem city hm)
    show update_loop fetch rest (update_loop_city fetch rows city) c = rows c
    rw [ih _ hrest, update_loop_city_ne fetch rows city c hne]

/-- C9: the rolling temperature history (a deque with
`maxlen = DEFAULT_HISTORY = 60`) never exceeds its capacity however many
points are appended, and appending to a full history drops the oldest
point (ring-buffer semantics). -/
theorem temp_history_bounded (xs : List ℚ) (q : List ℚ)
    (h : q.length ≤ DEFAULT_HISTORY) :
    (xs.foldl (dequeAppend DEFAULT_HISTORY) q).length ≤ DEFAULT_HISTORY ∧
    ∀ (full : List ℚ) (x : ℚ), full.length = DEFAULT_HISTORY →
      dequeAppend DEFAULT_HISTORY full x = full.drop 1 ++ [x] := by
  constructor
  · exact foldl_dequeAppend_length _ xs q h
  · intro full x hf
    show (if DEFAULT_HISTORY < (full ++ [x]).length then
        (full ++ [x]).drop ((full ++ [x]).length - DEFAULT_HISTORY)
      else full ++ [x]) = full.drop 1 ++ [x]
    rw [if_pos]
    · have h1 : (full ++ [x]).length - DEFAULT_HISTORY = 1 := by
        simp [List.length_append, hf]
      rw [h1, List.drop_append_of_le_length (by rw [hf]; decide)]
    · simp only [List.length_append, hf, List.length_cons, List.length_nil]
      decide

theorem temp_history_bounded_witness :
    ([] : List ℚ).length ≤ DEFAULT_HISTORY ∧
    (((List.replicate 100 (0 : ℚ)).foldl
        (dequeAppend DEFAULT_HISTORY) []).length ≤ DEFAULT_HISTORY ∧
      ∀ (full : List ℚ) (x : ℚ), full.length = DEFAULT_HISTORY →
        dequeAppend DEFAULT_HISTORY full x = full.drop 1 ++ [x]) :=
  ⟨by decide, temp_history_bounded (List.replicate 100 0) [] (by decide)⟩

/-- C10: when the weather service raises `requests.RequestException`,
`_get_weather_data` returns the fixed placeholder reading
(temperature 20.0, humidity 50.0, wind 0.0, condition "❓" = unknown),
so the tick overwrites that city's row with the placeholder instead of
leaving it unchanged; only a non-RequestException error makes the tick
skip the city. -/
theorem get_weather_data_placeholder (fetch : String → TickFetch)
    (rows : Rows) (pre post : List String) (city : String)
    (h : fetch city = .reqError) (hpost : city ∉ post) :
    get_weather_data (fetch city) = .ok dummyReading ∧
    dummyReading = ⟨20, 50, 0, .unknown⟩ ∧
    update_loop fetch (pre ++ city :: post) rows city = some dummyReading ∧
    (∀ (rows' : Rows) (c : String), fetch c = .otherError →
      update_loop_city fetch rows' c = rows') := by
  refine ⟨by rw [h]; rfl, rfl, ?_,
    fun rows' c hc => update_loop_city_skip fetch rows' c hc⟩
  show ((pre ++ city :: post).foldl (update_loop_city fetch) rows) city =
    some dummyReading
  rw [List.foldl_append]
  show update_loop fetch post
      (update_loop_city fetch (update_loop fetch pre rows) city) city =
    some dummyReading
  rw [update_loop_not_mem fetch post _ city hpost]
  exact update_loop_city_req fetch _ city h

theorem get_weather_data_placeholder_witness :
    ((fun _ => TickFetch.reqError) "London" = TickFetch.reqError) ∧
    ("London" ∉ ([] : List String)) ∧
    (get_weather_data ((fun _ => TickFetch.reqError) "London") =
        .ok dummyReading ∧
      dummyReading = ⟨20, 50, 0, .unknown⟩ ∧
      update_loop (fun _ => TickFetch.reqError) ([] ++ "London" :: [])
          (fun _ => none) "London" = some dummyReading ∧
      (∀ (rows' : Rows) (c : String),
        (fun _ => TickFetch.reqError) c = .otherError →
          update_loop_city (fun _ => TickFetch.reqError) rows' c = rows')) :=
  ⟨rfl, by simp, get_weather_data_placeholder (fun _ => TickFetch.reqError)
    (fun _ => none) [] [] "London" rfl (by simp)⟩

/-- C3 counterexample: with a single configured city whose fetch fails
with a `requests.RequestException`, the tick does not leave the row
unchanged — it overwrites it with the placeholder reading, so the
claim's "its row is left unchanged" is false on the code. -/
theorem update_loop_row_changed_cex :
    update_loop (fun _ => TickFetch.reqError) ["London"] (fun _ => none)
        "London" = some dummyReading ∧
    some dummyReading ≠ (fun _ => (none : Option Reading)) "London" := by
  constructor
  · decide
  · decide

/-- C3 (amended): a failing fetch never aborts the tick: with three
distinct cities of which exactly the middle one fails, the tick
completes and writes the other two cities' fetched readings to their
rows; the failing city's row is left unchanged when the failure is not
a `requests.RequestException`, and is overwritten with the placeholder
reading when it is one. -/
theorem update_loop_tick_amended (fetch : String → TickFetch) (rows : Rows)
    (a b c : String) (ra rc : Reading)
    (hab : a ≠ b) (hac : a ≠ c) (hbc : b ≠ c)
    (ha : fetch a = .ok ra) (hc : fetch c = .ok rc) :
    update_loop fetch [a, b, c] rows a = some ra ∧
    update_loop fetch [a, b, c] rows c = some rc ∧
    (fetch b = .otherError → update_loop fetch [a, b, c] rows b = rows b) ∧
    (fetch b = .reqError →
      update_loop fetch [a, b, c] rows b = some dummyReading) := by
  have e : update_loop fetch [a, b, c] rows =
      update_loop_city fetch
        (update_loop_city fetch (update_loop_city fetch rows a) b) c := rfl
  refine ⟨?_, ?_, ?_, ?_⟩
  · rw [e, update_loop_city_ne _ _ c a hac, update_loop_city_ne _ _ b a hab]
    exact update_loop_city_ok fetch rows a ra ha
  · rw [e]
    exact update_loop_city_ok fetch _ c rc hc
  · intro hb
    rw [e, update_loop_city_ne _ _ c b hbc, update_loop_city_skip fetch _ b hb,
      update_loop_city_ne _ _ a b (Ne.symm hab)]
  · intro hb
    rw [e, update_loop_city_ne _ _ c b hbc]
    exact update_loop_city_req fetch _ b hb

theorem update_loop_tick_amended_witness :
    ("A" ≠ "B") ∧ ("A" ≠ "C") ∧ ("B" ≠ "C") ∧
    ((fun s => if s = "B" then TickFetch.reqError
        else if s = "A" then TickFetch.ok ⟨10, 20, 30, .clear⟩
        else TickFetch.ok ⟨1, 2, 3, .rain⟩) "A" =
      TickFetch.ok ⟨10, 20, 30, .clear⟩) ∧
    ((fun s => if s = "B" then TickFetch.reqError
        else if s = "A" then TickFetch.ok ⟨10, 20, 30, .clear⟩
        else TickFetch.ok ⟨1, 2, 3, .rain⟩) "C" =
      TickFetch.ok ⟨1, 2, 3, .rain⟩) ∧
    (update_loop (fun s => if s = "B" then TickFetch.reqError
        else if s = "A" then TickFetch.ok ⟨10, 20, 30, .clear⟩
        else TickFetch.ok ⟨1, 2, 3, .rain⟩) ["A", "B", "C"] (fun _ => none)
        "A" = some ⟨10, 20, 30, .clear⟩ ∧
      update_loop (fun s => if s = "B" then TickFetch.reqError
        else if s = "A" then TickFetch.ok ⟨10, 20, 30, .clear⟩
        else TickFetch.ok ⟨1, 2, 3, .rain⟩) ["A", "B", "C"] (fun _ => none)
        "C" = some ⟨1, 2, 3, .rain⟩ ∧
      ((fun s => if s = "B" then TickFetch.reqError
        else if s = "A" then TickFetch.ok ⟨10, 20, 30, .clear⟩
        else TickFetch.ok ⟨1, 2, 3, .rain⟩) "B" = TickFetch.otherError →
        update_loop (fun s => if s = "B" then TickFetch.reqError
          else if s = "A" then TickFetch.ok ⟨10, 20, 30, .clear⟩
          else TickFetch.ok ⟨1, 2, 3, .rain⟩) ["A", "B", "C"] (fun _ => none)
          "B" = (fun _ => (none : Option Reading)) "B") ∧
      ((fun s => if s = "B" then TickFetch.reqError
        else if s = "A" then TickFetch.ok ⟨10, 20, 30, .clear⟩
        else TickFetch.ok ⟨1, 2, 3, .rain⟩) "B" = TickFetch.reqError →
        update_loop (fun s => if s = "B" then TickFetch.reqError
          else if s = "A" then TickFetch.ok ⟨10, 20, 30, .clear⟩
          else TickFetch.ok ⟨1, 2, 3, .rain⟩) ["A", "B", "C"] (fun _ => none)
          "B" = some dummyReading)) :=
  ⟨by decide, by decide, by decide, by decide, by decide,
    update_loop_tick_amended _ (fun _ => none) "A" "B" "C" _ _
      (by decide) (by decide) (by decide) (by decide) (by decide)⟩

/-- C5: the numeric-path classifier returns clear exactly when
`temp > 30 ∧ humidity < 50`, otherwise rain exactly when
`humidity > 80`, otherwise partly-cloudy; it never yields snow, fog,
thunderstorm, overcast or unknown; and it maps (32, 40) to clear,
(20, 85) to rain, (20, 60) to partly-cloudy. -/
theorem get_weather_condition_spec (t h : ℚ) :
    (get_weather_condition t h = .clear ↔ t > 30 ∧ h < 50) ∧
    (get_weather_condition t h = .rain ↔ ¬(t > 30 ∧ h < 50) ∧ h > 80) ∧
    (get_weather_condition t h = .partlyCloudy ↔ ¬(t > 30 ∧ h < 50) ∧ ¬(h > 80)) ∧
    get_weather_condition t h ≠ .snow ∧
    get_weather_condition t h ≠ .fog ∧
    get_weather_condition t h ≠ .thunderstorm ∧
    get_weather_condition t h ≠ .overcast ∧
    get_weather_condition t h ≠ .unknown ∧
    get_weather_condition 32 40 = .clear ∧
    get_weather_condition 20 85 = .rain ∧
    get_weather_condition 20 60 = .partlyCloudy := by
  refine ⟨?_, ?_, ?_, ?_, ?_, ?_, ?_, ?_, by decide, by decide, by decide⟩ <;>
  · unfold get_weather_condition
    split_ifs <;> simp_all

/-- C4: the text-path classifier lower-cases the provider text and
tests the categories in first-match-wins priority order thunderstorm,
rain, snow, fog, clear, partly-cloudy, overcast, unknown; in particular
"Thunderstorms likely" classifies as thunderstorm and "Partly cloudy
with a chance of rain" as rain. -/
theorem classifyText_priority (s : String) :
    (classifyText s = .thunderstorm ↔ thunderTest (lowerStr s) = true) ∧
    (classifyText s = .rain ↔
      thunderTest (lowerStr s) = false ∧ rainTest (lowerStr s) = true) ∧
    (classifyText s = .snow ↔
      thunderTest (lowerStr s) = false ∧ rainTest (lowerStr s) = false ∧
      snowTest (lowerStr s) = true) ∧
    (classifyText s = .fog ↔
      thunderTest (lowerStr s) = false ∧ rainTest (lowerStr s) = false ∧
      snowTest (lowerStr s) = false ∧ fogTest (lowerStr s) = true) ∧
    (classifyText s = .clear ↔
      thunderTest (lowerStr s) = false ∧ rainTest (lowerStr s) = false ∧
      snowTest (lowerStr s) = false ∧ fogTest (lowerStr s) = false ∧
      clearTest (lowerStr s) = true) ∧
    (classifyText s = .partlyCloudy ↔
      thunderTest (lowerStr s) = false ∧ rainTest (lowerStr s) = false ∧
      snowTest (lowerStr s) = false ∧ fogTest (lowerStr s) = false ∧
      clearTest (lowerStr s) = false ∧ partlyTest (lowerStr s) = true) ∧
    (classifyText s = .overcast ↔
      thunderTest (lowerStr s) = false ∧ rainTest (lowerStr s) = false ∧
      snowTest (lowerStr s) = false ∧ fogTest (lowerStr s) = false ∧
      clearTest (lowerStr s) = false ∧ partlyTest (lowerStr s) = false ∧
      cloudTest (lowerStr s) = true) ∧
    (classifyText s = .unknown ↔
      thunderTest (lowerStr s) = false ∧ rainTest (lowerStr s) = false ∧
      snowTest (lowerStr s) = false ∧ fogTest (lowerStr s) = false ∧
      clearTest (lowerStr s) = false ∧ partlyTest (lowerStr s) = false ∧
      cloudTest (lowerStr s) = false) ∧
    classifyText "Thunderstorms likely" = .thunderstorm ∧
    classifyText "Partly cloudy with a chance of rain" = .rain := by
  refine ⟨?_, ?_, ?_, ?_, ?_, ?_, ?_, ?_, by decide, by decide⟩ <;>
  · unfold classifyText
    split_ifs <;> simp_all

theorem fetchFromApi_requested (cache : Cache) (now : ℚ) (net : HttpResult)
    (city : String) (u : Bool) (cd : Option Reading) :
    (fetchFromApi cache now net city u cd).requested = true := by
  cases net with
  | success body => cases body <;> rfl
  | httpError status =>
    cases cd with
    | none => rfl
    | some d =>
      show (if (status == 429 && u) = true then
          (⟨.ok d, cache, true⟩ : FetchOutcome)
        else ⟨.error (.http status), cache, true⟩).requested = true
      split_ifs <;> rfl
  | transportError => rfl

theorem get_weather_hit (cache : Cache) (now ts : ℚ) (r : Reading)
    (net : HttpResult) (city : String) (u : Bool)
    (hc : cache city = some (ts, r)) (hfresh : now - ts < CACHE_DURATION) :
    get_weather cache now net city u = ⟨.ok r, cache, false⟩ := by
  unfold get_weather
  rw [hc]
  show (if now - ts < CACHE_DURATION then (⟨.ok r, cache, false⟩ : FetchOutcome)
      else fetchFromApi cache now net city u (some r)) = ⟨.ok r, cache, false⟩
  rw [if_pos hfresh]

theorem get_weather_expired (cache : Cache) (now ts : ℚ) (r : Reading)
    (net : HttpResult) (city : String) (u : Bool)
    (hc : cache city = some (ts, r)) (hstale : CACHE_DURATION ≤ now - ts) :
    get_weather cache now net city u =
      fetchFromApi cache now net city u (some r) := by
  unfold get_weather
  rw [hc]
  show (if now - ts < CACHE_DURATION then (⟨.ok r, cache, false⟩ : FetchOutcome)
      else fetchFromApi cache now net city u (some r)) =
    fetchFromApi cache now net city u (some r)
  rw [if_neg (not_lt.mpr hstale)]

theorem get_weather_miss (cache : Cache) (now : ℚ) (net : HttpResult)
    (city : String) (u : Bool) (hc : cache city = none) :
    get_weather cache now net city u =
      fetchFromApi cache now net city u none := by
  unfold get_weather
  rw [hc]

/-- C1: a successful first call for an uncached city issues a request
and returns a reading; a second call for the same city strictly less
than CACHE_DURATION = 600 seconds later returns that same reading,
leaves the cache unchanged and issues no network request, whatever the
network would answer; a call 600 seconds or more after the cached
entry's timestamp issues a new network request. -/
theorem get_weather_cache_ttl (cache : Cache) (t1 t2 : ℚ)
    (cur : CurrentConditions) (city : String) (net2 : HttpResult) (u2 : Bool)
    (hnone : cache city = none) :
    ∃ r : Reading,
      (get_weather cache t1 (.success (some cur)) city true).result = .ok r ∧
      (get_weather cache t1 (.success (some cur)) city true).requested = true ∧
      (t2 - t1 < CACHE_DURATION →
        get_weather (get_weather cache t1 (.success (some cur)) city true).cache
            t2 net2 city u2 =
          ⟨.ok r, (get_weather cache t1 (.success (some cur)) city true).cache,
            false⟩) ∧
      (CACHE_DURATION ≤ t2 - t1 →
        (get_weather
            (get_weather cache t1 (.success (some cur)) city true).cache
            t2 net2 city u2).requested = true) := by
  have e1 : get_weather cache t1 (.success (some cur)) city true =
      ⟨.ok (mkReading cur), updateCache cache city (t1, mkReading cur),
        true⟩ := by
    rw [get_weather_miss _ _ _ _ _ hnone]
    rfl
  have e2 : updateCache cache city (t1, mkReading cur) city =
      some (t1, mkReading cur) := by
    unfold updateCache
    simp
  refine ⟨mkReading cur, by rw [e1], by rw [e1], ?_, ?_⟩
  · intro hlt
    rw [e1]
    exact get_weather_hit _ t2 t1 _ net2 city u2 e2 hlt
  · intro hge
    rw [e1]
    rw [get_weather_expired _ t2 t1 _ net2 city u2 e2 hge]
    exact fetchFromApi_requested _ _ _ _ _ _

theorem get_weather_cache_ttl_witness :
    emptyCache "London" = none ∧
    (∃ r : Reading,
      (get_weather emptyCache 0 (.success (some sampleCur)) "London"
          true).result = .ok r ∧
      (get_weather emptyCache 0 (.success (some sampleCur)) "London"
          true).requested = true ∧
      ((500 : ℚ) - 0 < CACHE_DURATION →
        get_weather
            (get_weather emptyCache 0 (.success (some sampleCur)) "London"
              true).cache 500 .transportError "London" true =
          ⟨.ok r, (get_weather emptyCache 0 (.success (some sampleCur))
            "London" true).cache, false⟩) ∧
      (CACHE_DURATION ≤ (500 : ℚ) - 0 →
        (get_weather
            (get_weather emptyCache 0 (.success (some sampleCur)) "London"
              true).cache 500 .transportError "London" true).requested =
          true)) :=
  ⟨rfl, get_weather_cache_ttl emptyCache 0 500 sampleCur "London"
    .transportError true rfl⟩

/-- C2: with no fresh cache entry (so the request is actually issued),
a 429 failure returns the stale cached reading when one exists (of any
age) and leaves the cache unchanged; a 429 with no prior entry, any
other HTTP status, a transport error, and a malformed response all
propagate as errors, with no stale reading returned. -/
theorem get_weather_stale_fallback (cache : Cache) (now : ℚ) (city : String)
    (hstale : ∀ ts r, cache city = some (ts, r) → CACHE_DURATION ≤ now - ts) :
    (∀ ts r, cache city = some (ts, r) →
      get_weather cache now (.httpError 429) city true =
        ⟨.ok r, cache, true⟩) ∧
    (cache city = none →
      get_weather cache now (.httpError 429) city true =
        ⟨.error (.http 429), cache, true⟩) ∧
    (∀ status, status ≠ 429 →
      (get_weather cache now (.httpError status) city true).result =
        .error (.http status)) ∧
    (get_weather cache now .transportError city true).result =
      .error .transport ∧
    (get_weather cache now (.success none) city true).result =
      .error .malformed := by
  refine ⟨?_, ?_, ?_, ?_, ?_⟩
  · intro ts r h
    rw [get_weather_expired _ _ _ _ _ _ _ h (hstale ts r h)]
    rfl
  · intro h
    rw [get_weather_miss _ _ _ _ _ h]
    rfl
  · intro status hs
    cases hcc : cache city with
    | none =>
      rw [get_weather_miss _ _ _ _ _ hcc]
      rfl
    | some entry =>
      obtain ⟨ts, r⟩ := entry
      rw [get_weather_expired _ _ _ _ _ _ _ hcc (hstale ts r hcc)]
      show (if (status == 429 && true) = true then
          (⟨.ok r, cache, true⟩ : FetchOutcome)
        else ⟨.error (.http status), cache, true⟩).result =
        .error (.http status)
      rw [if_neg (by simp [hs])]
  · cases hcc : cache city with
    | none =>
      rw [get_weather_miss _ _ _ _ _ hcc]
      rfl
    | some entry =>
      obtain ⟨ts, r⟩ := entry
      rw [get_weather_expired _ _ _ _ _ _ _ hcc (hstale ts r hcc)]
      rfl
  · cases hcc : cache city with
    | none =>
      rw [get_weather_miss _ _ _ _ _ hcc]
      rfl
    | some entry =>
      obtain ⟨ts, r⟩ := entry
      rw [get_weather_expired _ _ _ _ _ _ _ hcc (hstale ts r hcc)]
      rfl

theorem get_weather_stale_fallback_witness :
    (∀ ts r, sampleCache "London" = some (ts, r) →
      CACHE_DURATION ≤ (700 : ℚ) - ts) ∧
    ((∀ ts r, sampleCache "London" = some (ts, r) →
      get_weather sampleCache 700 (.httpError 429) "London" true =
        ⟨.ok r, sampleCache, true⟩) ∧
    (sampleCache "London" = none →
      get_weather sampleCache 700 (.httpError 429) "London" true =
        ⟨.error (.http 429), sampleCache, true⟩) ∧
    (∀ status, status ≠ 429 →
      (get_weather sampleCache 700 (.httpError status) "London" true).result =
        .error (.http status)) ∧
    (get_weather sampleCache 700 .transportError "London" true).result =
      .error .transport ∧
    (get_weather sampleCache 700 (.success none) "London" true).result =
      .error .malformed) :=
  have hs : ∀ ts r, sampleCache "London" = some (ts, r) →
      CACHE_DURATION ≤ (700 : ℚ) - ts := by
    intro ts r h
    simp only [sampleCache, Option.some.injEq, Prod.mk.injEq] at h
    rw [← h.1]
    norm_num [CACHE_DURATION]
  ⟨hs, get_weather_stale_fallback sampleCache 700 "London" hs⟩

/-- C8: with no fresh cache entry (so the request is issued), a
successful fetch returns the normalized reading — temperature and
humidity rounded to 1 decimal, wind speed converted mph → km/h via
×1.60934 and rounded to 1 decimal, condition from the text-path
classifier — and stores `(now, reading)` in the cache for that city,
overwriting any prior entry and touching no other city's entry. -/
theorem get_weather_success_normalizes (cache : Cache) (now : ℚ)
    (city : String) (cur : CurrentConditions) (u : Bool)
    (hstale : ∀ ts r, cache city = some (ts, r) → CACHE_DURATION ≤ now - ts) :
    (get_weather cache now (.success (some cur)) city u).result =
      .ok (mkReading cur) ∧
    mkReading cur = ⟨round1 cur.temp, round1 cur.humidity,
      round1 (cur.windspeed * 1.60934), classifyText cur.conditions⟩ ∧
    (get_weather cache now (.success (some cur)) city u).cache city =
      some (now, mkReading cur) ∧
    (∀ c, c ≠ city →
      (get_weather cache now (.success (some cur)) city u).cache c =
        cache c) := by
  have e : get_weather cache now (.success (some cur)) city u =
      ⟨.ok (mkReading cur), updateCache cache city (now, mkReading cur),
        true⟩ := by
    cases hcc : cache city with
    | none =>
      rw [get_weather_miss _ _ _ _ _ hcc]
      rfl
    | some entry =>
      obtain ⟨ts, r⟩ := entry
      rw [get_weather_expired _ _ _ _ _ _ _ hcc (hstale ts r hcc)]
      rfl
  refine ⟨by rw [e], rfl, ?_, ?_⟩
  · rw [e]
    show updateCache cache city (now, mkReading cur) city = _
    unfold updateCache
    simp
  · intro c hcn
    rw [e]
    show updateCache cache city (now, mkReading cur) c = cache c
    unfold updateCache
    simp [hcn]

theorem get_weather_success_normalizes_witness :
    (∀ ts r, emptyCache "London" = some (ts, r) →
      CACHE_DURATION ≤ (0 : ℚ) - ts) ∧
    ((get_weather emptyCache 0 (.success (some sampleCur)) "London"
        true).result = .ok (mkReading sampleCur) ∧
    mkReading sampleCur = ⟨round1 sampleCur.temp, round1 sampleCur.humidity,
      round1 (sampleCur.windspeed * 1.60934),
      classifyText sampleCur.conditions⟩ ∧
    (get_weather emptyCache 0 (.success (some sampleCur)) "London"
        true).cache "London" = some (0, mkReading sampleCur) ∧
    (∀ c, c ≠ "London" →
      (get_weather emptyCache 0 (.success (some sampleCur)) "London"
          true).cache c = emptyCache c)) :=
  have hs : ∀ ts r, emptyCache "London" = some (ts, r) →
      CACHE_DURATION ≤ (0 : ℚ) - ts := by
    intro ts r h
    simp [emptyCache] at h
  ⟨hs, get_weather_success_normalizes emptyCache 0 "London" sampleCur true hs⟩

theorem mem_of_mem_dropUnd {l : List Char} {c : Char} (h : c ∈ dropUnd l) :
    c ∈ l := by
  induction l with
  | nil => exact h
  | cons a r ih =>
    unfold dropUnd at h
    split at h
    · exact List.mem_cons_of_mem a (ih h)
    · exact h

theorem mem_of_mem_stripUnd {l : List Char} {c : Char} (h : c ∈ stripUnd l) :
    c ∈ l := by
  unfold stripUnd at h
  have h1 := mem_of_mem_dropUnd h
  rw [List.mem_reverse] at h1
  have h2 := mem_of_mem_dropUnd h1
  rw [List.mem_reverse] at h2
  exact h2

theorem dropUnd_head_ne (l : List Char) : (dropUnd l).head? ≠ some '_' := by
  induction l with
  | nil => simp [dropUnd]
  | cons a r ih =>
    unfold dropUnd
    split
    · exact ih
    · rename_i hne
      simp at hne ⊢
      exact hne

theorem dropUnd_eq_self {l : List Char} (h : l.head? ≠ some '_') :
    dropUnd l = l := by
  cases l with
  | nil => rfl
  | cons a r =>
    unfold dropUnd
    rw [if_neg (by simpa using h)]

theorem dropUnd_getLast (l : List Char) (h : dropUnd l ≠ []) :
    (dropUnd l).getLast? = l.getLast? := by
  induction l with
  | nil => rfl
  | cons a r ih =>
    unfold dropUnd at h ⊢
    by_cases ha : (a == '_') = true
    · rw [if_pos ha] at h ⊢
      have hr : r ≠ [] := by
        intro hr0
        rw [hr0] at h
        exact h rfl
      cases r with
      | nil => exact absurd rfl hr
      | cons b rb =>
        rw [ih h, List.getLast?_cons_cons]
    · rw [if_neg ha]

theorem stripUnd_head_ne (l : List Char) : (stripUnd l).head? ≠ some '_' :=
  dropUnd_head_ne _

theorem stripUnd_getLast_ne (l : List Char) :
    (stripUnd l).getLast? ≠ some '_' := by
  unfold stripUnd
  by_cases h : dropUnd ((dropUnd l.reverse).reverse) = []
  · rw [h]
    simp
  · rw [dropUnd_getLast _ h, List.getLast?_eq_head?_reverse,
      List.reverse_reverse]
    exact dropUnd_head_ne _

theorem stripUnd_eq_self {l : List Char} (h1 : l.head? ≠ some '_')
    (h2 : l.getLast? ≠ some '_') : stripUnd l = l := by
  unfold stripUnd
  have hin : dropUnd l.reverse = l.reverse :=
    dropUnd_eq_self (by rw [List.head?_reverse]; exact h2)
  rw [hin, List.reverse_reverse, dropUnd_eq_self h1]

theorem collapseSep_eq_self {l : List Char} (h : ∀ c ∈ l, isSep c = false) :
    collapseSep false l = l := by
  induction l with
  | nil => rfl
  | cons a r ih =>
    unfold collapseSep
    rw [if_neg (by simp [h a (List.mem_cons_self a r)])]
    rw [ih (fun c hc => h c (List.mem_cons_of_mem a hc))]

theorem isKept_not_isSep {c : Char} (h : isKept c = true) : isSep c = false := by
  simp only [isKept, Bool.or_eq_true, Bool.and_eq_true, decide_eq_true_eq,
    beq_iff_eq] at h
  simp only [isSep, Bool.or_eq_false_iff, beq_eq_false_iff_ne, ne_eq]
  omega

theorem toLower_eq_self_of_isKept {c : Char} (h : isKept c = true) :
    c.toLower = c := by
  simp only [isKept, Bool.or_eq_true, Bool.and_eq_true, decide_eq_true_eq,
    beq_iff_eq] at h
  show (if c.toNat ≥ 65 ∧ c.toNat ≤ 90 then Char.ofNat (c.toNat + 32)
    else c) = c
  rw [if_neg]
  omega

theorem sanitize_topic_data (s : String) :
    (sanitize_topic s).data =
      stripUnd (List.filter isKept
        (collapseSep false (s.data.map Char.toLower))) := rfl

theorem sanitize_topic_mem_isKept {s : String} {c : Char}
    (h : c ∈ (sanitize_topic s).data) : isKept c = true := by
  rw [sanitize_topic_data] at h
  exact (List.mem_filter.mp (mem_of_mem_stripUnd h)).2

/-- C6: `sanitize_topic` is a total function whose output contains only
lowercase ASCII letters, digits and underscores, with no leading or
trailing underscore; it maps "New York City!" to "new_york_city",
all-whitespace input to the empty string (a valid result), and "Zürich"
to "zrich" (non-ASCII letters are stripped). -/
theorem sanitize_topic_spec :
    sanitize_topic "New York City!" = "new_york_city" ∧
    sanitize_topic "   " = "" ∧
    sanitize_topic "Zürich" = "zrich" ∧
    ∀ s : String,
      (∀ c ∈ (sanitize_topic s).data, isKept c = true) ∧
      (sanitize_topic s).data.head? ≠ some '_' ∧
      (sanitize_topic s).data.getLast? ≠ some '_' := by
  refine ⟨by decide, by decide, by decide,
    fun s => ⟨fun c hc => sanitize_topic_mem_isKept hc, ?_, ?_⟩⟩
  · rw [sanitize_topic_data]
    exact stripUnd_head_ne _
  · rw [sanitize_topic_data]
    exact stripUnd_getLast_ne _

theorem sanitize_topic_spec_witness :
    'n' ∈ (sanitize_topic "New-York?").data ∧ isKept 'n' = true :=
  ⟨by decide, (sanitize_topic_spec.2.2.2 "New-York?").1 'n' (by decide)⟩

/-- C7: `sanitize_topic` is idempotent: sanitizing an already sanitized
string changes nothing, for every input string. -/
theorem sanitize_topic_idem (s : String) :
    sanitize_topic (sanitize_topic s) = sanitize_topic s := by
  have hkept : ∀ c ∈ (sanitize_topic s).data, isKept c = true :=
    fun c hc => sanitize_topic_mem_isKept hc
  have h1 : (sanitize_topic s).data.map Char.toLower =
      (sanitize_topic s).data := by
    conv_rhs => rw [← List.map_id (sanitize_topic s).data]
    exact List.map_congr_left fun a ha => toLower_eq_self_of_isKept (hkept a ha)
  have h2 : collapseSep false (sanitize_topic s).data =
      (sanitize_topic s).data :=
    collapseSep_eq_self fun c hc => isKept_not_isSep (hkept c hc)
  have h3 : List.filter isKept (sanitize_topic s).data =
      (sanitize_topic s).data :=
    List.filter_eq_self.mpr hkept
  have h4 : stripUnd (sanitize_topic s).data = (sanitize_topic s).data := by
    apply stripUnd_eq_self
    · rw [sanitize_topic_data]
      exact stripUnd_head_ne _
    · rw [sanitize_topic_data]
      exact stripUnd_getLast_ne _
  show (⟨stripUnd (List.filter isKept (collapseSep false
      ((sanitize_topic s).data.map Char.toLower)))⟩ : String) = sanitize_topic s
  rw [h1, h2, h3, h4]
